import Mathlib

/-!
# Verification of the Verilog/SDF merge step (`src/backend/src/mergeVerilogSdf.js`)

The backend's `mergeJsonForD3(verilogData, sdfData)` correlates a parsed
Verilog netlist with a parsed SDF timing model: it builds a `Map` from
trimmed SDF `instanceName`s to their timing records, then walks every
instance of every module of (a JSON clone of) the netlist and, when the
instance's trimmed `name` hits the map, attaches timing data according to
the record's `cellType` (`"DFF"`, `"LUT_K"`) or, failing those, the
instance's own `type` (`"fpga_interconnect"`).

The embedding below mirrors that file statement by statement.  JSON
values are modelled with typed structures whose optional fields are
`Option`s: a JS field that is `undefined` (or was never set, or was set
to `undefined` and hence dropped by JSON serialization) is `none`.
Numeric delay payloads are modelled as `Int` — the merge only transports
them, never computes with them.  The `JSON.parse(JSON.stringify(...))`
clone on line 3 of the source is the identity on this value model, so it
does not appear as a separate operation; the trailing `delaysCount` loop
(lines 61–71 of the source) writes only a local variable that is never
returned, so it has no observable effect and is likewise omitted.
-/

namespace FpgaMerge

/-- One path-delay entry of an SDF record's `delays` array; the merge
only ever reads its `delay` field (line 47 of the source). -/
structure DelayEntry where
  delay : Int := 0
  deriving Repr, DecidableEq

/-- The `delays` payload of an SDF timing record, as the merge
distinguishes it: an array (line 44, `Array.isArray`), a bare number
(line 51, `typeof ... === "number"`), or any other JSON object (e.g.
`\x7bvalue: 3\x7d`), which the interconnect branch ignores but the DFF and
LUT_K branches copy verbatim. -/
inductive Delays where
  | arr : List DelayEntry → Delays
  | num : Int → Delays
  | obj : List (String × Int) → Delays
  deriving Repr, DecidableEq

/-- A timing-check record; the merge copies these verbatim (line 34),
never inspecting the fields, so a representative shape suffices. -/
structure TimingCheck where
  kind : String := ""
  value : Int := 0
  deriving Repr, DecidableEq

/-- One SDF timing record (`sdfData.instances[i]`). -/
structure SdfInstance where
  instanceName : Option String := none
  cellType : Option String := none
  delays : Option Delays := none
  timingChecks : Option (List TimingCheck) := none
  deriving Repr, DecidableEq

/-- The parsed SDF model. `none` models a missing or non-array
`instances` field (guard on line 7 of the source). -/
structure SdfData where
  instances : Option (List SdfInstance) := none
  deriving Repr, DecidableEq

/-- One port-to-net connection of a netlist instance.  `delay` is absent
in parser output; only the interconnect branch of the merge sets it. -/
structure Connection where
  port : String := ""
  net : String := ""
  delay : Option Int := none
  deriving Repr, DecidableEq

/-- One netlist instance.  `delays` and `timingChecks` are absent in
parser output; the merge may attach them. -/
structure VInstance where
  name : Option String := none
  type : Option String := none
  connections : Option (List Connection) := none
  delays : Option Delays := none
  timingChecks : Option (List TimingCheck) := none
  deriving Repr, DecidableEq

/-- One Verilog module.  `none` connections/instances model a missing or
non-array field (guard on line 19 of the source); a present-but-empty
array is `some []`, which is truthy in JS exactly as `isSome` here. -/
structure VModule where
  ports : List String := []
  instances : Option (List VInstance) := none
  deriving Repr, DecidableEq

/-- The parsed Verilog model: `modules` is a JSON object keyed by module
name; `Object.values` (line 18) iterates the values in insertion order,
which the association list preserves. -/
structure VerilogData where
  modules : List (String × VModule) := []
  deriving Repr, DecidableEq

/-- The whitespace class used by JS `String.prototype.trim` (restricted
to the ASCII whitespace that can occur in the parsed names). -/
def isJsWhitespace (c : Char) : Bool :=
  c = ' ' || c = '\t' || c = '\n' || c = '\r'

/-- Trim on character lists: drop leading whitespace, then trailing. -/
def trimChars (l : List Char) : List Char :=
  ((l.dropWhile isJsWhitespace).reverse.dropWhile isJsWhitespace).reverse

/-- Model of JS `String.prototype.trim` (lines 11 and 26 of the source). -/
def jsTrim (s : String) : String :=
  String.mk (trimChars s.data)

/-- Model of `Map.prototype.set`: overwrite the value in place if the key
is present (JS `Map.set` keeps the original insertion position), append
otherwise. -/
def mapSet (m : List (String × SdfInstance)) (k : String) (v : SdfInstance) :
    List (String × SdfInstance) :=
  match m with
  | [] => [(k, v)]
  | (k2, v2) :: rest => if k2 = k then (k, v) :: rest else (k2, v2) :: mapSet rest k v

/-- Model of `Map.prototype.get`: first (hence only) entry with the key. -/
def mapGet (m : List (String × SdfInstance)) (k : String) : Option SdfInstance :=
  match m with
  | [] => none
  | (k2, v2) :: rest => if k2 = k then some v2 else mapGet rest k

/-- Lines 8–14 of the source: the body of the `forEach` that fills
`sdfInstancesMap`.  A record is entered only when `inst.instanceName` is
truthy (present and nonempty); the key is the trimmed name.  The
source's `inst &&` guard handles `null` array slots, which the typed
list cannot contain. -/
def sdfMapStep (m : List (String × SdfInstance)) (inst : SdfInstance) :
    List (String × SdfInstance) :=
  match inst.instanceName with
  | none => m
  | some nm => if nm = "" then m else mapSet m (jsTrim nm) inst

/-- Lines 6–15 of the source: build `sdfInstancesMap` from the SDF
model, scanning `sdfData.instances` in source order. -/
def buildSdfMap (sdfData : SdfData) : List (String × SdfInstance) :=
  match sdfData.instances with
  | none => []
  | some insts => insts.foldl sdfMapStep []

/-- Lines 42–54 of the source: the per-connection body of the
interconnect branch.  An array `delays` contributes its first entry's
`delay` when nonempty; a bare number contributes itself; anything else
(empty array handled above, object, absent) leaves the connection
untouched. -/
def annotateConn (d : Option Delays) (c : Connection) : Connection :=
  match d with
  | some (Delays.arr entries) =>
    match entries with
    | [] => c
    | e :: _ => { c with delay := some e.delay }
  | some (Delays.num n) => { c with delay := some n }
  | _ => c

/-- Lines 20–57 of the source: the body of the per-instance `forEach`.
An instance with a falsy `name` returns early (line 21); an instance
whose trimmed name misses the map is untouched (line 29); otherwise the
record's `cellType` is consulted first (`"DFF"` line 31, `"LUT_K"` line
37) and only then the instance's own `type` together with the truthiness
of `instance.connections` (line 41). -/
def mergeInstance (smap : List (String × SdfInstance)) (inst : VInstance) : VInstance :=
  match inst.name with
  | none => inst
  | some nm =>
    if nm = "" then inst
    else
      match mapGet smap (jsTrim nm) with
      | none => inst
      | some sdfInst =>
        if sdfInst.cellType = some "DFF" then
          { inst with delays := sdfInst.delays, timingChecks := sdfInst.timingChecks }
        else if sdfInst.cellType = some "LUT_K" then
          { inst with delays := sdfInst.delays }
        else if inst.type = some "fpga_interconnect" then
          match inst.connections with
          | none => inst
          | some conns =>
            { inst with connections := some (conns.map (annotateConn sdfInst.delays)) }
        else inst

/-- Lines 19–23 and 58 of the source: a module whose `instances` field is
missing (or not an array) is left alone; otherwise every instance goes
through `mergeInstance`. -/
def mergeModule (smap : List (String × SdfInstance)) (m : VModule) : VModule :=
  match m.instances with
  | none => m
  | some insts => { m with instances := some (insts.map (mergeInstance smap)) }

/-- The merge applied to a netlist with an already-built lookup map
(the source holds the map in the local `sdfInstancesMap`). -/
def mergeWithMap (smap : List (String × SdfInstance)) (verilogData : VerilogData) :
    VerilogData :=
  { modules := verilogData.modules.map (fun p => (p.1, mergeModule smap p.2)) }

/-- The whole of `mergeJsonForD3` (lines 1–74 of the source): clone the
netlist (identity on this value model), build the SDF lookup, annotate
every instance of every module, return the annotated clone. -/
def mergeJsonForD3 (verilogData : VerilogData) (sdfData : SdfData) : VerilogData :=
  mergeWithMap (buildSdfMap sdfData) verilogData

/-! ## Helper lemmas -/

/-- Every module of the input reappears in the merge output, with its
instances mapped through `mergeInstance`. -/
theorem mergedModule_mem (v : VerilogData) (s : SdfData) (k : String) (m : VModule)
    (h : (k, m) ∈ v.modules) :
    (k, mergeModule (buildSdfMap s) m) ∈ (mergeJsonForD3 v s).modules := by
  unfold mergeJsonForD3 mergeWithMap
  exact List.mem_map.mpr ⟨(k, m), h, rfl⟩

/-- A module with an instance list is merged instance by instance. -/
theorem mergeModule_some (smap : List (String × SdfInstance)) (m : VModule)
    (insts : List VInstance) (his : m.instances = some insts) :
    mergeModule smap m = { m with instances := some (insts.map (mergeInstance smap)) } := by
  unfold mergeModule
  rw [his]

/-- Pointwise value of the interconnect fan-out on a nonempty delay
array: every connection gets the first entry's delay. -/
theorem map_annotateConn_arr_cons (e : DelayEntry) (rest : List DelayEntry)
    (cs : List Connection) :
    cs.map (annotateConn (some (Delays.arr (e :: rest)))) =
      cs.map (fun c => { c with delay := some e.delay }) := by
  induction cs with
  | nil => rfl
  | cons c t ih => simp only [List.map_cons, ih, annotateConn]

/-- Pointwise value of the interconnect fan-out on a scalar delay:
every connection gets the scalar. -/
theorem map_annotateConn_num (x : Int) (cs : List Connection) :
    cs.map (annotateConn (some (Delays.num x))) =
      cs.map (fun c => { c with delay := some x }) := by
  induction cs with
  | nil => rfl
  | cons c t ih => simp only [List.map_cons, ih, annotateConn]

/-- The interconnect fan-out on an empty delay array touches nothing. -/
theorem map_annotateConn_arr_nil (cs : List Connection) :
    cs.map (annotateConn (some (Delays.arr []))) = cs := by
  induction cs with
  | nil => rfl
  | cons c t ih => simp only [List.map_cons, ih, annotateConn]

/-! ## C1: interconnect dispatch

The spec says the interconnect case is decided by the instance's own
`type`, regardless of the record's `cellType`.  The source checks
`sdfInstance.cellType === "DFF"` (line 31) and `"LUT_K"` (line 37)
before it ever looks at `instance.type` (line 41), so a record whose
`cellType` is one of those two wins over the instance's own type. -/

def c1xi : VInstance :=
  { name := some "routed1"
    type := some "fpga_interconnect"
    connections := some [{ port := "datain", net := "n1" }] }

def c1xr : SdfInstance :=
  { instanceName := some "routed1"
    cellType := some "DFF"
    delays := some (Delays.num 4)
    timingChecks := some [{ kind := "SETUP", value := 1 }] }

def c1xv : VerilogData := { modules := [("top", { instances := some [c1xi] })] }

def c1xs : SdfData := { instances := some [c1xr] }

/-- C1 counterexample: an instance whose `type` is
`"fpga_interconnect"`, matched by a record whose `cellType` is `"DFF"`,
receives instance-level `delays` and `timingChecks` while its
connection keeps no `delay` — the DFF branch fired, so the dispatch was
decided by the record's `cellType`, not the instance's own `type` as
the claim states. -/
theorem c1_interconnect_dispatch_counterexample :
    c1xi.type = some "fpga_interconnect" ∧
      mapGet (buildSdfMap c1xs) (jsTrim "routed1") = some c1xr ∧
      c1xr.cellType = some "DFF" ∧
      mergeJsonForD3 c1xv c1xs =
        { modules := [("top",
            { instances := some [{ c1xi with
                delays := some (Delays.num 4)
                timingChecks := some [{ kind := "SETUP", value := 1 }] }] })] } := by
  decide

/-- C1 (amended): for every netlist instance whose `type` is
`"fpga_interconnect"` and whose normalized name matches a timing record
whose `cellType` is neither `"DFF"` nor `"LUT_K"`, the merge attaches
no instance-level `delays` and no `timingChecks`, and instead assigns
`connection.delay` on the instance's connections from the matched
record (lines 41–54 of the source). -/
theorem c1_interconnect_dispatch (v : VerilogData) (s : SdfData) (k : String) (m : VModule)
    (insts : List VInstance) (inst : VInstance) (nm : String) (r : SdfInstance)
    (cs : List Connection)
    (hm : (k, m) ∈ v.modules) (his : m.instances = some insts) (hin : inst ∈ insts)
    (hnm : inst.name = some nm) (hne : nm ≠ "")
    (hr : mapGet (buildSdfMap s) (jsTrim nm) = some r)
    (hdff : r.cellType ≠ some "DFF") (hlut : r.cellType ≠ some "LUT_K")
    (hty : inst.type = some "fpga_interconnect") (hc : inst.connections = some cs)
    (hd : inst.delays = none) (htc : inst.timingChecks = none) :
    (k, { m with instances := some (insts.map (mergeInstance (buildSdfMap s))) }) ∈
        (mergeJsonForD3 v s).modules ∧
      mergeInstance (buildSdfMap s) inst =
        { inst with connections := some (cs.map (annotateConn r.delays)) } ∧
      (mergeInstance (buildSdfMap s) inst).delays = none ∧
      (mergeInstance (buildSdfMap s) inst).timingChecks = none := by
  have hmain : mergeInstance (buildSdfMap s) inst =
      { inst with connections := some (cs.map (annotateConn r.delays)) } := by
    simp [mergeInstance, hnm, hne, hr, hdff, hlut, hty, hc]
  refine ⟨?_, hmain, ?_, ?_⟩
  · have h2 := mergedModule_mem v s k m hm
    rwa [mergeModule_some (buildSdfMap s) m insts his] at h2
  · rw [hmain]; exact hd
  · rw [hmain]; exact htc

def c1cs : List Connection :=
  [{ port := "datain", net := "n1" }, { port := "dataout", net := "n2" }]

def c1i : VInstance :=
  { name := some "w1", type := some "fpga_interconnect", connections := some c1cs }

def c1m : VModule := { instances := some [c1i] }

def c1r : SdfInstance :=
  { instanceName := some "w1"
    cellType := some "fpga_interconnect"
    delays := some (Delays.arr [{ delay := 5 }, { delay := 9 }]) }

def c1v : VerilogData := { modules := [("top", c1m)] }

def c1s : SdfData := { instances := some [c1r] }

/-- Witness for the amended C1 at a concrete routed wire matched by a
record whose `cellType` is the interconnect's own. -/
theorem c1_interconnect_dispatch_witness :
    ("top", { c1m with instances := some ([c1i].map (mergeInstance (buildSdfMap c1s))) }) ∈
        (mergeJsonForD3 c1v c1s).modules ∧
      mergeInstance (buildSdfMap c1s) c1i =
        { c1i with connections := some (c1cs.map (annotateConn c1r.delays)) } ∧
      (mergeInstance (buildSdfMap c1s) c1i).delays = none ∧
      (mergeInstance (buildSdfMap c1s) c1i).timingChecks = none :=
  c1_interconnect_dispatch c1v c1s "top" c1m [c1i] c1i "w1" c1r c1cs (by decide) rfl
    (by decide) rfl (by decide) (by decide) (by decide) (by decide) rfl rfl rfl rfl

/-! ## C2: interconnect delay fan-out -/

def c2xi : VInstance :=
  { name := some "routed2"
    type := some "fpga_interconnect"
    connections := some [{ port := "datain", net := "n1" }] }

def c2xr : SdfInstance :=
  { instanceName := some "routed2"
    cellType := some "LUT_K"
    delays := some (Delays.arr [{ delay := 5 }]) }

def c2xv : VerilogData := { modules := [("top", { instances := some [c2xi] })] }

def c2xs : SdfData := { instances := some [c2xr] }

/-- C2 counterexample: a matched interconnect instance whose record has
the nonempty delay sequence `[\x7bdelay: 5\x7d]` but `cellType` `"LUT_K"`:
the claim says every connection receives `delay = 5`, but the LUT_K
branch (line 37) fires first, attaching the array to the instance and
leaving the connection's `delay` absent. -/
theorem c2_interconnect_fanout_counterexample :
    c2xi.type = some "fpga_interconnect" ∧
      mapGet (buildSdfMap c2xs) (jsTrim "routed2") = some c2xr ∧
      c2xr.delays = some (Delays.arr [{ delay := 5 }]) ∧
      mergeJsonForD3 c2xv c2xs =
        { modules := [("top",
            { instances := some [{ c2xi with
                delays := some (Delays.arr [{ delay := 5 }]) }] })] } := by
  decide

/-- C2 (amended): for every matched interconnect instance whose matched
record's `cellType` is neither `"DFF"` nor `"LUT_K"`: a nonempty delay
array fans its first entry out to every connection (lines 44–48), a
bare scalar is fanned out as is (lines 51–52), and an empty delay array
leaves the instance — in particular every connection's `delay` —
untouched (line 46 guards the assignment). -/
theorem c2_interconnect_fanout (v : VerilogData) (s : SdfData) (k : String) (m : VModule)
    (insts : List VInstance) (inst : VInstance) (nm : String) (r : SdfInstance)
    (cs : List Connection)
    (hm : (k, m) ∈ v.modules) (his : m.instances = some insts) (hin : inst ∈ insts)
    (hnm : inst.name = some nm) (hne : nm ≠ "")
    (hr : mapGet (buildSdfMap s) (jsTrim nm) = some r)
    (hdff : r.cellType ≠ some "DFF") (hlut : r.cellType ≠ some "LUT_K")
    (hty : inst.type = some "fpga_interconnect") (hc : inst.connections = some cs) :
    (k, { m with instances := some (insts.map (mergeInstance (buildSdfMap s))) }) ∈
        (mergeJsonForD3 v s).modules ∧
      (∀ (e : DelayEntry) (rest : List DelayEntry),
        r.delays = some (Delays.arr (e :: rest)) →
          (mergeInstance (buildSdfMap s) inst).connections =
            some (cs.map (fun c => { c with delay := some e.delay }))) ∧
      (∀ x : Int,
        r.delays = some (Delays.num x) →
          (mergeInstance (buildSdfMap s) inst).connections =
            some (cs.map (fun c => { c with delay := some x }))) ∧
      (r.delays = some (Delays.arr []) → mergeInstance (buildSdfMap s) inst = inst) := by
  have hmain : mergeInstance (buildSdfMap s) inst =
      { inst with connections := some (cs.map (annotateConn r.delays)) } := by
    simp [mergeInstance, hnm, hne, hr, hdff, hlut, hty, hc]
  refine ⟨?_, ?_, ?_, ?_⟩
  · have h2 := mergedModule_mem v s k m hm
    rwa [mergeModule_some (buildSdfMap s) m insts his] at h2
  · intro e rest hdl
    rw [hmain, hdl, map_annotateConn_arr_cons]
  · intro x hdl
    rw [hmain, hdl, map_annotateConn_num]
  · intro hdl
    rw [hmain, hdl, map_annotateConn_arr_nil, ← hc]

def c2cs : List Connection :=
  [{ port := "i0", net := "n1" }, { port := "i1", net := "n2" }, { port := "o", net := "n3" }]

def c2i : VInstance :=
  { name := some "w2", type := some "fpga_interconnect", connections := some c2cs }

def c2m : VModule := { instances := some [c2i] }

def c2r : SdfInstance :=
  { instanceName := some "w2"
    cellType := some "fpga_interconnect"
    delays := some (Delays.arr [{ delay := 5 }, { delay := 9 }]) }

def c2v : VerilogData := { modules := [("top", c2m)] }

def c2s : SdfData := { instances := some [c2r] }

/-- Witness for the amended C2: the spec's own fan-out example — three
connections, matched record with delay sequence of entries 5 and 9 —
gives every connection `delay = 5`. -/
theorem c2_interconnect_fanout_witness :
    (mergeInstance (buildSdfMap c2s) c2i).connections =
      some [{ port := "i0", net := "n1", delay := some 5 },
        { port := "i1", net := "n2", delay := some 5 },
        { port := "o", net := "n3", delay := some 5 }] :=
  (c2_interconnect_fanout c2v c2s "top" c2m [c2i] c2i "w2" c2r c2cs (by decide) rfl
      (by decide) rfl (by decide) (by decide) (by decide) (by decide) rfl rfl).2.1
    { delay := 5 } [{ delay := 9 }] rfl

/-! ## C3: sequential-cell (DFF) attachment -/

/-- C3: for every netlist instance whose normalized name matches a
timing record whose `cellType` is `"DFF"`, the merge attaches exactly
the matched record's `delays` value and exactly its `timingChecks`
sequence to the instance, unmodified (lines 31–35 of the source), and
this per-instance rule is what `mergeJsonForD3` applies to the
instance's module. -/
theorem c3_dff_attachment (v : VerilogData) (s : SdfData) (k : String) (m : VModule)
    (insts : List VInstance) (inst : VInstance) (nm : String) (r : SdfInstance)
    (hm : (k, m) ∈ v.modules) (his : m.instances = some insts) (hin : inst ∈ insts)
    (hnm : inst.name = some nm) (hne : nm ≠ "")
    (hr : mapGet (buildSdfMap s) (jsTrim nm) = some r)
    (hct : r.cellType = some "DFF") :
    (k, { m with instances := some (insts.map (mergeInstance (buildSdfMap s))) }) ∈
        (mergeJsonForD3 v s).modules ∧
      mergeInstance (buildSdfMap s) inst =
        { inst with delays := r.delays, timingChecks := r.timingChecks } := by
  refine ⟨?_, ?_⟩
  · have h2 := mergedModule_mem v s k m hm
    rwa [mergeModule_some (buildSdfMap s) m insts his] at h2
  · simp [mergeInstance, hnm, hne, hr, hct]

def c3i : VInstance := { name := some "ff1", type := some "DFF" }

def c3m : VModule := { instances := some [c3i] }

def c3r : SdfInstance :=
  { instanceName := some "ff1"
    cellType := some "DFF"
    delays := some (Delays.obj [("value", 3)])
    timingChecks := some [{ kind := "SETUP", value := 1 }, { kind := "HOLD", value := 2 }] }

def c3v : VerilogData := { modules := [("top", c3m)] }

def c3s : SdfData := { instances := some [c3r] }

/-- Witness for C3 at a concrete flip-flop instance whose record carries
an object-shaped `delays` and two timing checks, as in the spec's
sequential-cell example. -/
theorem c3_dff_attachment_witness :
    ("top", { c3m with instances := some ([c3i].map (mergeInstance (buildSdfMap c3s))) }) ∈
        (mergeJsonForD3 c3v c3s).modules ∧
      mergeInstance (buildSdfMap c3s) c3i =
        { c3i with delays := c3r.delays, timingChecks := c3r.timingChecks } :=
  c3_dff_attachment c3v c3s "top" c3m [c3i] c3i "ff1" c3r (by decide) rfl (by decide)
    rfl (by decide) (by decide) rfl

/-! ## C4: lookup-cell (LUT_K) attachment -/

/-- C4: for every netlist instance whose normalized name matches a
timing record whose `cellType` is `"LUT_K"`, the merge attaches only
the matched record's `delays`; the instance's `timingChecks` stays
absent even when the matched record carries timing-check entries
(lines 37–39 of the source set only `delays`). -/
theorem c4_lut_attachment (v : VerilogData) (s : SdfData) (k : String) (m : VModule)
    (insts : List VInstance) (inst : VInstance) (nm : String) (r : SdfInstance)
    (tcs : List TimingCheck)
    (hm : (k, m) ∈ v.modules) (his : m.instances = some insts) (hin : inst ∈ insts)
    (hnm : inst.name = some nm) (hne : nm ≠ "")
    (hr : mapGet (buildSdfMap s) (jsTrim nm) = some r)
    (hct : r.cellType = some "LUT_K")
    (hrtc : r.timingChecks = some tcs)
    (htc : inst.timingChecks = none) :
    (k, { m with instances := some (insts.map (mergeInstance (buildSdfMap s))) }) ∈
        (mergeJsonForD3 v s).modules ∧
      mergeInstance (buildSdfMap s) inst = { inst with delays := r.delays } ∧
      (mergeInstance (buildSdfMap s) inst).timingChecks = none := by
  have hmain : mergeInstance (buildSdfMap s) inst = { inst with delays := r.delays } := by
    simp [mergeInstance, hnm, hne, hr, hct]
  refine ⟨?_, hmain, ?_⟩
  · have h2 := mergedModule_mem v s k m hm
    rwa [mergeModule_some (buildSdfMap s) m insts his] at h2
  · rw [hmain]
    exact htc

def c4i : VInstance := { name := some "lut1", type := some "LUT_K" }

def c4m : VModule := { instances := some [c4i] }

def c4r : SdfInstance :=
  { instanceName := some "lut1"
    cellType := some "LUT_K"
    delays := some (Delays.arr [{ delay := 6 }, { delay := 8 }])
    timingChecks := some [{ kind := "SETUP", value := 1 }] }

def c4v : VerilogData := { modules := [("top", c4m)] }

def c4s : SdfData := { instances := some [c4r] }

/-- Witness for C4 at a concrete LUT instance whose record carries both
an array of path delays and a timing-check entry: the delays arrive,
the timing check does not. -/
theorem c4_lut_attachment_witness :
    ("top", { c4m with instances := some ([c4i].map (mergeInstance (buildSdfMap c4s))) }) ∈
        (mergeJsonForD3 c4v c4s).modules ∧
      mergeInstance (buildSdfMap c4s) c4i = { c4i with delays := c4r.delays } ∧
      (mergeInstance (buildSdfMap c4s) c4i).timingChecks = none :=
  c4_lut_attachment c4v c4s "top" c4m [c4i] c4i "lut1" c4r
    [{ kind := "SETUP", value := 1 }] (by decide) rfl (by decide) rfl (by decide)
    (by decide) rfl rfl rfl

/-! ## C5: any other cell type is silently skipped -/

/-- C5: when the matched record's `cellType` is neither `"DFF"` nor
`"LUT_K"` and the instance's own `type` is not `"fpga_interconnect"`,
the merge leaves the instance exactly as it was — no `delays`, no
`timingChecks`, no connection delays.  No error exists for this case:
`mergeInstance` is a total function and this branch simply falls
through (lines 29–56 of the source have no else-branch and no throw). -/
theorem c5_other_celltype_skipped (v : VerilogData) (s : SdfData) (k : String) (m : VModule)
    (insts : List VInstance) (inst : VInstance) (nm : String) (r : SdfInstance)
    (hm : (k, m) ∈ v.modules) (his : m.instances = some insts) (hin : inst ∈ insts)
    (hnm : inst.name = some nm) (hne : nm ≠ "")
    (hr : mapGet (buildSdfMap s) (jsTrim nm) = some r)
    (hdff : r.cellType ≠ some "DFF") (hlut : r.cellType ≠ some "LUT_K")
    (hty : inst.type ≠ some "fpga_interconnect") :
    (k, { m with instances := some (insts.map (mergeInstance (buildSdfMap s))) }) ∈
        (mergeJsonForD3 v s).modules ∧
      mergeInstance (buildSdfMap s) inst = inst := by
  refine ⟨?_, ?_⟩
  · have h2 := mergedModule_mem v s k m hm
    rwa [mergeModule_some (buildSdfMap s) m insts his] at h2
  · simp [mergeInstance, hnm, hne, hr, hdff, hlut, hty]

def c5i : VInstance :=
  { name := some "ram1"
    type := some "RAM"
    connections := some [{ port := "a", net := "n1" }] }

def c5m : VModule := { instances := some [c5i] }

def c5r : SdfInstance :=
  { instanceName := some "ram1"
    cellType := some "RAM"
    delays := some (Delays.num 9)
    timingChecks := some [{ kind := "SETUP", value := 1 }] }

def c5v : VerilogData := { modules := [("top", c5m)] }

def c5s : SdfData := { instances := some [c5r] }

/-- Witness for C5 at a concrete RAM-typed instance matched by a RAM
record: nothing is attached. -/
theorem c5_other_celltype_skipped_witness :
    ("top", { c5m with instances := some ([c5i].map (mergeInstance (buildSdfMap c5s))) }) ∈
        (mergeJsonForD3 c5v c5s).modules ∧
      mergeInstance (buildSdfMap c5s) c5i = c5i :=
  c5_other_celltype_skipped c5v c5s "top" c5m [c5i] c5i "ram1" c5r (by decide) rfl
    (by decide) rfl (by decide) (by decide) (by decide) (by decide) (by decide)

/-! ## C6: unmatched instances stay unannotated -/

/-- C6: an instance whose normalized name misses the SDF lookup is left
exactly as it was, and in particular keeps absent `delays`,
`timingChecks` and connection `delay` fields when those were absent in
the parsed input; the merge raises no error for it (line 29 of the
source just skips the `if (sdfInstance)` block). -/
theorem c6_unmatched_unannotated (v : VerilogData) (s : SdfData) (k : String) (m : VModule)
    (insts : List VInstance) (inst : VInstance) (nm : String)
    (hm : (k, m) ∈ v.modules) (his : m.instances = some insts) (hin : inst ∈ insts)
    (hnm : inst.name = some nm) (hne : nm ≠ "")
    (hr : mapGet (buildSdfMap s) (jsTrim nm) = none)
    (hd : inst.delays = none) (htc : inst.timingChecks = none)
    (hc : ∀ c ∈ inst.connections.getD [], c.delay = none) :
    (k, { m with instances := some (insts.map (mergeInstance (buildSdfMap s))) }) ∈
        (mergeJsonForD3 v s).modules ∧
      mergeInstance (buildSdfMap s) inst = inst ∧
      (mergeInstance (buildSdfMap s) inst).delays = none ∧
      (mergeInstance (buildSdfMap s) inst).timingChecks = none ∧
      (∀ c ∈ (mergeInstance (buildSdfMap s) inst).connections.getD [], c.delay = none) := by
  have hmain : mergeInstance (buildSdfMap s) inst = inst := by
    simp [mergeInstance, hnm, hne, hr]
  refine ⟨?_, hmain, ?_, ?_, ?_⟩
  · have h2 := mergedModule_mem v s k m hm
    rwa [mergeModule_some (buildSdfMap s) m insts his] at h2
  · rw [hmain]; exact hd
  · rw [hmain]; exact htc
  · rw [hmain]; exact hc

def c6i : VInstance :=
  { name := some "orphan"
    type := some "LUT_K"
    connections := some [{ port := "a", net := "n1" }] }

def c6m : VModule := { instances := some [c6i] }

def c6r : SdfInstance :=
  { instanceName := some "other"
    cellType := some "LUT_K"
    delays := some (Delays.num 2) }

def c6v : VerilogData := { modules := [("top", c6m)] }

def c6s : SdfData := { instances := some [c6r] }

/-- Witness for C6 at a concrete instance whose name appears nowhere in
the timing model. -/
theorem c6_unmatched_unannotated_witness :
    ("top", { c6m with instances := some ([c6i].map (mergeInstance (buildSdfMap c6s))) }) ∈
        (mergeJsonForD3 c6v c6s).modules ∧
      mergeInstance (buildSdfMap c6s) c6i = c6i ∧
      (mergeInstance (buildSdfMap c6s) c6i).delays = none ∧
      (mergeInstance (buildSdfMap c6s) c6i).timingChecks = none ∧
      (∀ c ∈ (mergeInstance (buildSdfMap c6s) c6i).connections.getD [], c.delay = none) :=
  c6_unmatched_unannotated c6v c6s "top" c6m [c6i] c6i "orphan" (by decide) rfl
    (by decide) rfl (by decide) (by decide) rfl rfl (by decide)

/-! ## C7: whitespace normalization of correlation keys -/

/-- Leading whitespace is dropped before anything else is inspected. -/
theorem dropWhile_spaces (l : List Char) :
    ([' ', ' '] ++ l).dropWhile isJsWhitespace = l.dropWhile isJsWhitespace := rfl

/-- Trailing spaces do not change the trimmed character list. -/
theorem trimChars_append_spaces (l : List Char) :
    trimChars (l ++ [' ', ' ']) = trimChars l := by
  unfold trimChars
  rw [List.dropWhile_append]
  by_cases h : (l.dropWhile isJsWhitespace).isEmpty
  · rw [if_pos h, List.isEmpty_iff.mp h]
    rfl
  · rw [if_neg h, List.reverse_append (l.dropWhile isJsWhitespace) [' ', ' ']]
    rw [show ([' ', ' '] : List Char).reverse = [' ', ' '] from rfl]
    rw [dropWhile_spaces]

/-- Leading spaces do not change the trimmed character list. -/
theorem trimChars_spaces_append (l : List Char) :
    trimChars ([' ', ' '] ++ l) = trimChars l := by
  unfold trimChars
  rw [dropWhile_spaces]

/-- `jsTrim` is invariant under padding with two spaces on each side:
the model of the normalization the source applies on lines 11 and 26. -/
theorem jsTrim_pad (s : String) : jsTrim ("  " ++ s ++ "  ") = jsTrim s := by
  obtain ⟨d⟩ := s
  show String.mk (trimChars (([' ', ' '] ++ d) ++ [' ', ' '])) = String.mk (trimChars d)
  rw [trimChars_append_spaces, trimChars_spaces_append]

/-- A padded string is never empty, hence always truthy on line 9. -/
theorem pad_ne_empty (s : String) : ("  " ++ s ++ "  ") ≠ "" := by
  intro h
  have h2 := congrArg String.length h
  rw [String.length_append, String.length_append] at h2
  rw [show ("  " : String).length = 2 from rfl, show ("" : String).length = 0 from rfl] at h2
  omega

/-- A timing model holding one truthy-named record builds the one-entry
lookup keyed by the trimmed name. -/
theorem buildSdfMap_single (r : SdfInstance) (nm : String) (hn : r.instanceName = some nm)
    (hne : nm ≠ "") : buildSdfMap { instances := some [r] } = [(jsTrim nm, r)] := by
  simp [buildSdfMap, sdfMapStep, hn, hne, mapSet]

/-- A one-entry lookup answers by comparing its single key. -/
theorem mapGet_singleton (k q : String) (v : SdfInstance) :
    mapGet [(k, v)] q = if k = q then some v else none := rfl

/-- How lines 29–56 of the source treat an instance whose trimmed name
hits the lookup: the looked-up record's `cellType` is consulted first,
then the instance's own `type` and connections. -/
theorem mergeInstance_matched (smap : List (String × SdfInstance)) (inst : VInstance)
    (nm : String) (r : SdfInstance)
    (hnm : inst.name = some nm) (hne : nm ≠ "")
    (hr : mapGet smap (jsTrim nm) = some r) :
    mergeInstance smap inst =
      if r.cellType = some "DFF" then
        { inst with delays := r.delays, timingChecks := r.timingChecks }
      else if r.cellType = some "LUT_K" then
        { inst with delays := r.delays }
      else if inst.type = some "fpga_interconnect" then
        match inst.connections with
        | none => inst
        | some conns => { inst with connections := some (conns.map (annotateConn r.delays)) }
      else inst := by
  simp [mergeInstance, hnm, hne, hr]

/-- An instance whose trimmed name misses the lookup is untouched. -/
theorem mergeInstance_unmatched (smap : List (String × SdfInstance)) (inst : VInstance)
    (nm : String)
    (hnm : inst.name = some nm) (hne : nm ≠ "")
    (hr : mapGet smap (jsTrim nm) = none) :
    mergeInstance smap inst = inst := by
  simp [mergeInstance, hnm, hne, hr]

/-- `mergeInstance` never reads the looked-up record's `instanceName`:
two one-entry lookups under the same key whose records agree on
`cellType`, `delays` and `timingChecks` merge every instance alike. -/
theorem mergeInstance_single_congr (k : String) (r1 r2 : SdfInstance)
    (hct : r1.cellType = r2.cellType) (hd : r1.delays = r2.delays)
    (htc : r1.timingChecks = r2.timingChecks) (inst : VInstance) :
    mergeInstance [(k, r1)] inst = mergeInstance [(k, r2)] inst := by
  cases hnm : inst.name with
  | none => simp [mergeInstance, hnm]
  | some nm =>
    by_cases hne : nm = ""
    · simp [mergeInstance, hnm, hne]
    · by_cases hk : k = jsTrim nm
      · rw [mergeInstance_matched [(k, r1)] inst nm r1 hnm hne
            (by rw [mapGet_singleton, if_pos hk]),
          mergeInstance_matched [(k, r2)] inst nm r2 hnm hne
            (by rw [mapGet_singleton, if_pos hk]),
          hct, hd, htc]
      · rw [mergeInstance_unmatched [(k, r1)] inst nm hnm hne
            (by rw [mapGet_singleton, if_neg hk]),
          mergeInstance_unmatched [(k, r2)] inst nm hnm hne
            (by rw [mapGet_singleton, if_neg hk])]

/-- A module with no instance array is left alone. -/
theorem mergeModule_none (smap : List (String × SdfInstance)) (m : VModule)
    (hmi : m.instances = none) : mergeModule smap m = m := by
  unfold mergeModule
  rw [hmi]

/-- Merging a module with either of two pointwise-equal instance merges
gives the same module. -/
theorem mergeModule_congr (m1 m2 : List (String × SdfInstance))
    (h : ∀ i, mergeInstance m1 i = mergeInstance m2 i) (mod : VModule) :
    mergeModule m1 mod = mergeModule m2 mod := by
  cases hmi : mod.instances with
  | none => rw [mergeModule_none m1 mod hmi, mergeModule_none m2 mod hmi]
  | some insts =>
    rw [mergeModule_some m1 mod insts hmi, mergeModule_some m2 mod insts hmi,
      List.map_congr_left (fun a _ => h a)]

/-- Two lookups that merge every instance alike merge every netlist
alike. -/
theorem mergeWithMap_congr (m1 m2 : List (String × SdfInstance))
    (h : ∀ i, mergeInstance m1 i = mergeInstance m2 i) (v : VerilogData) :
    mergeWithMap m1 v = mergeWithMap m2 v := by
  unfold mergeWithMap
  congr 1
  exact List.map_congr_left (fun p _ => by rw [mergeModule_congr m1 m2 h p.2])

def c7xi : VInstance := { name := some " ", type := some "LUT_K" }

def c7xv : VerilogData := { modules := [("top", { instances := some [c7xi] })] }

def c7xr : SdfInstance := { cellType := some "LUT_K", delays := some (Delays.num 4) }

/-- C7 counterexample: at the degenerate name `s = ""` the two runs
differ.  The padded record's `instanceName` is `"    "`, which is
truthy and enters the lookup under the trimmed key `""`, so a netlist
instance named `" "` (truthy, trimming to `""`) gets annotated; the
unpadded record's `instanceName` is `""`, which is falsy and never
enters the lookup (line 9 of the source), so the same instance stays
bare. -/
theorem c7_trim_invariance_counterexample :
    mergeJsonForD3 c7xv
        { instances := some [{ c7xr with instanceName := some ("  " ++ "" ++ "  ") }] } ≠
      mergeJsonForD3 c7xv
        { instances := some [{ c7xr with instanceName := some "" }] } := by
  decide

/-- C7 (amended): for every nonempty instance name `s`, merging against
a single timing record named `"  " ++ s ++ "  "` gives exactly the same
annotated netlist as merging against the same record named `s`, for
every netlist and every record payload. -/
theorem c7_trim_invariance (v : VerilogData) (r : SdfInstance) (s : String) (hs : s ≠ "") :
    mergeJsonForD3 v { instances := some [{ r with instanceName := some ("  " ++ s ++ "  ") }] } =
      mergeJsonForD3 v { instances := some [{ r with instanceName := some s }] } := by
  unfold mergeJsonForD3
  rw [buildSdfMap_single _ ("  " ++ s ++ "  ") rfl (pad_ne_empty s)]
  rw [buildSdfMap_single _ s rfl hs]
  rw [jsTrim_pad]
  exact mergeWithMap_congr
    [(jsTrim s, { r with instanceName := some ("  " ++ s ++ "  ") })]
    [(jsTrim s, { r with instanceName := some s })]
    (fun i => mergeInstance_single_congr (jsTrim s)
      { r with instanceName := some ("  " ++ s ++ "  ") }
      { r with instanceName := some s } rfl rfl rfl i) v

def c7i : VInstance := { name := some "lut7", type := some "LUT_K" }

def c7v : VerilogData := { modules := [("top", { instances := some [c7i] })] }

def c7r : SdfInstance := { cellType := some "LUT_K", delays := some (Delays.num 4) }

/-- Witness for the amended C7 at the concrete name `"lut7"`. -/
theorem c7_trim_invariance_witness :
    mergeJsonForD3 c7v
        { instances := some [{ c7r with instanceName := some ("  " ++ "lut7" ++ "  ") }] } =
      mergeJsonForD3 c7v
        { instances := some [{ c7r with instanceName := some "lut7" }] } :=
  c7_trim_invariance c7v c7r "lut7" (by decide)

/-! ## C8: last write wins on duplicate timing names -/

/-- `Map.get` after `Map.set` at the same key sees the new value. -/
theorem mapGet_mapSet_self (m : List (String × SdfInstance)) (k : String)
    (val : SdfInstance) : mapGet (mapSet m k val) k = some val := by
  induction m with
  | nil => simp [mapSet, mapGet]
  | cons p rest ih =>
    obtain ⟨k2, v2⟩ := p
    by_cases h : k2 = k
    · simp [mapSet, h, mapGet]
    · simp [mapSet, h, mapGet, ih]

/-- `Map.get` after `Map.set` at a different key is unchanged. -/
theorem mapGet_mapSet_ne (m : List (String × SdfInstance)) (k2 k : String)
    (val : SdfInstance) (h : k2 ≠ k) : mapGet (mapSet m k2 val) k = mapGet m k := by
  induction m with
  | nil => simp [mapSet, mapGet, h]
  | cons p rest ih =>
    obtain ⟨k3, v3⟩ := p
    by_cases h2 : k3 = k2
    · subst h2
      simp [mapSet, mapGet, h]
    · simp [mapSet, h2, mapGet, ih]

/-- Records whose trimmed names all miss a key leave that key's lookup
result untouched as the fold scans them. -/
theorem foldl_sdfMapStep_preserve (l : List SdfInstance)
    (m : List (String × SdfInstance)) (key : String)
    (h : ∀ r2 ∈ l, ∀ nm2, r2.instanceName = some nm2 → nm2 ≠ "" → jsTrim nm2 ≠ key) :
    mapGet (l.foldl sdfMapStep m) key = mapGet m key := by
  induction l generalizing m with
  | nil => rfl
  | cons r2 t ih =>
    rw [List.foldl_cons, ih _ (fun x hx => h x (List.mem_cons_of_mem _ hx))]
    unfold sdfMapStep
    cases hn : r2.instanceName with
    | none => rfl
    | some nm2 =>
      by_cases he : nm2 = ""
      · simp [he]
      · simp only [if_neg he]
        exact mapGet_mapSet_ne m (jsTrim nm2) key r2 (h r2 (List.mem_cons_self r2 t) nm2 hn he)

/-- `mergeInstance` only consults the lookup at the instance's own
trimmed name, so two lookups agreeing there merge the instance alike. -/
theorem mergeInstance_eq_of_get (m1 m2 : List (String × SdfInstance)) (inst : VInstance)
    (h : ∀ nm, inst.name = some nm → mapGet m1 (jsTrim nm) = mapGet m2 (jsTrim nm)) :
    mergeInstance m1 inst = mergeInstance m2 inst := by
  unfold mergeInstance
  cases hnm : inst.name with
  | none => rfl
  | some nm =>
    by_cases hne : nm = ""
    · simp [hne]
    · simp only [if_neg hne, h nm hnm]

/-- C8: when the timing model contains several records whose normalized
names collide, the one occurring last in source order owns the lookup
entry, and a matching instance is merged exactly as if that last record
were the only one — the earlier duplicates have no effect (lines 6–15
of the source: `Map.set` in a forward scan). -/
theorem c8_last_write_wins (l1 l2 : List SdfInstance) (r : SdfInstance)
    (nm : String) (inst : VInstance) (inm : String)
    (hname : r.instanceName = some nm) (hne : nm ≠ "")
    (hl2 : ∀ r2 ∈ l2, ∀ nm2, r2.instanceName = some nm2 → nm2 ≠ "" → jsTrim nm2 ≠ jsTrim nm)
    (hinm : inst.name = some inm) (hit : jsTrim inm = jsTrim nm) :
    mapGet (buildSdfMap { instances := some (l1 ++ r :: l2) }) (jsTrim nm) = some r ∧
      mergeInstance (buildSdfMap { instances := some (l1 ++ r :: l2) }) inst =
        mergeInstance (buildSdfMap { instances := some [r] }) inst := by
  have hget : mapGet (buildSdfMap { instances := some (l1 ++ r :: l2) }) (jsTrim nm)
      = some r := by
    show mapGet ((l1 ++ r :: l2).foldl sdfMapStep []) (jsTrim nm) = some r
    rw [List.foldl_append, List.foldl_cons]
    rw [foldl_sdfMapStep_preserve l2 _ _ hl2]
    simp [sdfMapStep, hname, hne, mapGet_mapSet_self]
  have hget2 : mapGet (buildSdfMap { instances := some [r] }) (jsTrim nm) = some r := by
    rw [buildSdfMap_single r nm hname hne]
    simp [mapGet]
  refine ⟨hget, mergeInstance_eq_of_get _ _ inst ?_⟩
  intro nm2 hnm2
  have heq : nm2 = inm := by
    rw [hinm] at hnm2
    exact (Option.some.inj hnm2).symm
  subst heq
  rw [hit, hget, hget2]

def c8i : VInstance := { name := some "n1", type := some "LUT_K" }

def c8r1 : SdfInstance :=
  { instanceName := some "n1", cellType := some "LUT_K", delays := some (Delays.num 2) }

def c8r2 : SdfInstance :=
  { instanceName := some "n1", cellType := some "LUT_K", delays := some (Delays.num 7) }

/-- Witness for C8: two records named `"n1"` with different delays — the
later one (delay 7) owns the lookup and drives the merge. -/
theorem c8_last_write_wins_witness :
    mapGet (buildSdfMap { instances := some ([c8r1] ++ c8r2 :: []) }) (jsTrim "n1")
        = some c8r2 ∧
      mergeInstance (buildSdfMap { instances := some ([c8r1] ++ c8r2 :: []) }) c8i =
        mergeInstance (buildSdfMap { instances := some [c8r2] }) c8i :=
  c8_last_write_wins [c8r1] [] c8r2 "n1" c8i "n1" rfl (by decide) (by simp) rfl rfl

/-! ## C10: nameless records and instances are excluded without error -/

/-- C10: a timing record whose `instanceName` is missing or empty never
enters the correlation lookup (the truthiness guard on line 9 of the
source), and a netlist instance whose `name` is missing or empty is
returned untouched by the per-instance merge (the early return on
lines 21–23); neither case fails. -/
theorem c10_nameless_excluded :
    (∀ (l1 l2 : List SdfInstance) (r : SdfInstance),
        r.instanceName = none ∨ r.instanceName = some "" →
        buildSdfMap { instances := some (l1 ++ r :: l2) } =
          buildSdfMap { instances := some (l1 ++ l2) }) ∧
      (∀ (smap : List (String × SdfInstance)) (inst : VInstance),
        inst.name = none ∨ inst.name = some "" →
        mergeInstance smap inst = inst) := by
  constructor
  · intro l1 l2 r h
    show (l1 ++ r :: l2).foldl sdfMapStep [] = (l1 ++ l2).foldl sdfMapStep []
    rw [List.foldl_append, List.foldl_append, List.foldl_cons]
    have hstep : sdfMapStep (l1.foldl sdfMapStep []) r = l1.foldl sdfMapStep [] := by
      unfold sdfMapStep
      rcases h with h | h
      · rw [h]
      · rw [h]
        simp
    rw [hstep]
  · intro smap inst h
    unfold mergeInstance
    rcases h with h | h
    · rw [h]
    · rw [h]
      simp

def c10r0 : SdfInstance := { cellType := some "DFF", delays := some (Delays.num 3) }

def c10r1 : SdfInstance :=
  { instanceName := some "a", cellType := some "DFF", delays := some (Delays.num 1) }

def c10r2 : SdfInstance :=
  { instanceName := some "b", cellType := some "DFF", delays := some (Delays.num 2) }

def c10i : VInstance := { name := some "", type := some "DFF" }

/-- Witness for C10: a nameless record sandwiched between two named ones
changes nothing in the lookup, and an empty-named instance passes the
merge untouched. -/
theorem c10_nameless_excluded_witness :
    buildSdfMap { instances := some ([c10r1] ++ c10r0 :: [c10r2]) } =
        buildSdfMap { instances := some ([c10r1] ++ [c10r2]) } ∧
      mergeInstance [(jsTrim "x", c10r1)] c10i = c10i :=
  ⟨c10_nameless_excluded.1 [c10r1] [c10r2] c10r0 (Or.inl rfl),
    c10_nameless_excluded.2 [(jsTrim "x", c10r1)] c10i (Or.inr rfl)⟩

end FpgaMerge
